import Mathlib

/-!
Shallow embedding of `src/nayak-server.py` (the Nayak connection server).

Python dictionaries are modelled as insertion-ordered association lists, Python
strings as `String`, byte buffers as `List Nat`, timestamps as opaque `String`
values (one abstract value stands for both `str(datetime)` and
`datetime.isoformat()`: no claim depends on the difference between the two
renderings), and Python exceptions as explicit error values.  Line numbers in
doc comments refer to `src/nayak-server.py`.
-/

namespace Nayak

/-- Values stored in the per-user dictionaries of the `users` global (line 31).
A `datetime` object is identified by its ISO text, a socket object by its file
descriptor number (`fileno()`). -/
inductive Val where
  | vstr (s : String)
  | vint (n : Int)
  | vdt (iso : String)
  | vnone
  | vsock (fd : Int)
  | vlist (xs : List Val)
  | vdict (kvs : List (String × Val))

/-- A Python dictionary with string keys, as an insertion-ordered association
list (Python 3.7+ dicts preserve insertion order). -/
abbrev PyDict (α : Type) := List (String × α)

/-- Python `d[k]` as a total lookup (`none` models a missing key / KeyError). -/
def alget {α : Type} : PyDict α → String → Option α
  | [], _ => none
  | (k1, v) :: rest, k => if k1 = k then some v else alget rest k

/-- Python `d[k] = v`: replace in place if the key exists, else append (Python
dicts keep the original position of an updated key). -/
def alset {α : Type} : PyDict α → String → α → PyDict α
  | [], k, v => [(k, v)]
  | (k1, v1) :: rest, k, v =>
      if k1 = k then (k1, v) :: rest else (k1, v1) :: alset rest k v

/-- A user record: the inner dictionary of `users` (line 31). -/
abbrev Dict := PyDict Val

/-- The `users` global: username to record (line 31). -/
abbrev Users := PyDict Dict

/-! ## Tick scheduler (lines 51-63, 98-105) -/

/-- One entry of `period_tasks` (lines 63, 70-74): interval in ticks and the
last-run tick value (`-1` means never run).  The task body itself (the
`function` field) is identified by the task's name. -/
structure TaskInfo where
  interval : Nat
  last_run : Int
deriving DecidableEq, Repr

/-- The scheduler globals: `server_ticks` (line 61, a Python int, hence
unbounded) and `period_tasks` (line 63). -/
structure SchedState where
  server_ticks : Nat
  period_tasks : PyDict TaskInfo
deriving DecidableEq, Repr

/-- Lines 98-105, `server_tick()`: increment `server_ticks` by one (the code
performs a plain `+= 1` with no wraparound, despite the comment at line 57
announcing a wrap from 0xFFFF back to 0), then run every task whose interval
divides the new counter value, recording the counter as its `last_run`.
Returns the new state together with the names of the tasks fired. -/
def server_tick (s : SchedState) : SchedState × List String :=
  let t := s.server_ticks + 1
  let tasks2 := s.period_tasks.map (fun p =>
    if t % p.2.interval = 0 then (p.1, TaskInfo.mk p.2.interval (t : Int)) else p)
  let fired := (s.period_tasks.filter (fun p => t % p.2.interval = 0)).map (fun p => p.1)
  (⟨t, tasks2⟩, fired)

/-- Call `server_tick()` a given number of times, keeping the state. -/
def runTicks : Nat → SchedState → SchedState
  | 0, s => s
  | n + 1, s => runTicks n (server_tick s).1

/-- The scheduler state set up by `main` (lines 70-74): one task,
`checkpoint`, with interval 600 and `last_run = -1`. -/
def initSched : SchedState := ⟨0, [("checkpoint", ⟨600, -1⟩)]⟩

/-! ## Byte-stream scrubber (lines 200-211, and the identical scan at 327-335) -/

/-- Lines 202-211: scan the raw chunk byte by byte; at an IAC byte (0xff = 255)
advance by 3 (`i += 3`: the marker plus the next two bytes, truncated at the
end of the chunk when fewer than two bytes remain), otherwise keep the byte
and advance by 1. -/
def scrub : List Nat → List Nat
  | [] => []
  | b :: rest =>
      if b = 255 then
        match rest with
        | _ :: _ :: rest2 => scrub rest2
        | _ => []
      else b :: scrub rest

/-- A segment of a raw input chunk: either a single text byte or a complete
3-byte out-of-band sequence (the 255 marker plus two bytes). -/
inductive Seg where
  | txt (b : Nat)
  | marker (x y : Nat)
deriving DecidableEq, Repr

/-- The raw bytes of one segment. -/
def segBytes : Seg → List Nat
  | .txt b => [b]
  | .marker x y => [255, x, y]

/-- The raw bytes of a list of segments, in order. -/
def segsBytes : List Seg → List Nat
  | [] => []
  | s :: rest => segBytes s ++ segsBytes rest

/-- The text bytes of a list of segments, in order. -/
def segsText : List Seg → List Nat
  | [] => []
  | .txt b :: rest => b :: segsText rest
  | .marker _ _ :: rest => segsText rest

/-- A text byte must not be the marker byte itself. -/
def segOK : Seg → Bool
  | .txt b => b ≠ 255
  | .marker _ _ => true

/-- Well-formed segmentation: every text byte differs from the marker. -/
def SegsWF (l : List Seg) : Prop := ∀ s ∈ l, segOK s = true

/-! ## User directory liveness check (lines 90-96) -/

/-- Lines 90-96, `user_is_connected` restricted to the record of the user
being checked (the source reads and writes `users[username]` in place; the
caller-side threading through the `users` map is done at each call site).
Returns the truth value and the possibly updated record: the record is
returned unchanged exactly when a socket with a valid descriptor is stored;
in every other case the `conn` entry is overwritten with None.  The source
would raise AttributeError on a stored value that is neither a socket nor
None; such values never occur (the source stores only sockets and None),
which the claims state through the `ConnWF` hypothesis. -/
def user_is_connected (rec : Dict) : Bool × Dict :=
  match alget rec "conn" with
  | some (.vsock fd) =>
      if fd ≠ -1 then (true, rec) else (false, alset rec "conn" .vnone)
  | _ => (false, alset rec "conn" .vnone)

/-- Well-formed connection field: the key is absent, holds None, or holds a
socket — the only three shapes the source ever produces. -/
def ConnWF (rec : Dict) : Prop :=
  alget rec "conn" = none ∨ alget rec "conn" = some Val.vnone ∨
    ∃ fd, alget rec "conn" = some (Val.vsock fd)

/-! ## Checkpoint store (lines 107-179) -/

mutual
/-- Modelled from msgpack-python semantics: `msgpack.packb` encodes strings,
integers, None, lists and dictionaries of encodable values; it raises
`TypeError` for unsupported object types such as `datetime` or socket
objects.  This predicate holds exactly when packing succeeds. -/
def msgpackable : Val → Bool
  | .vstr _ => true
  | .vint _ => true
  | .vdt _ => false
  | .vnone => true
  | .vsock _ => false
  | .vlist xs => msgpackableList xs
  | .vdict kvs => msgpackableDict kvs

/-- Every element of the list can be packed. -/
def msgpackableList : List Val → Bool
  | [] => true
  | v :: rest => msgpackable v && msgpackableList rest

/-- Every value of the dictionary can be packed. -/
def msgpackableDict : List (String × Val) → Bool
  | [] => true
  | (_, v) :: rest => msgpackable v && msgpackableDict rest
end

/-- Lines 107-113, `is_serializable`: calls `msgpack.packb(obj)` under
`except msgpack.PackException`.  Since msgpack 0.6.0 `PackException` is an
alias of `Exception` (exceptions.py of msgpack 1.0.5, line 46), so the
`TypeError` that `packb` raises for an unsupported object type is caught:
the failure is logged and False is returned.  The function therefore returns
exactly the packability of the value. -/
def is_serializable (v : Val) : Bool := msgpackable v

/-- Python `type(value) is datetime` (line 133). -/
def isDatetime : Val → Bool
  | .vdt _ => true
  | _ => false

/-- Python `value.isoformat()` for a datetime value (line 134); the source
only calls it after the `type` check, so the other cases are unreachable. -/
def isoformatOf : Val → String
  | .vdt iso => iso
  | _ => ""

/-- Lines 129-138 of `checkpoint`, the per-record serialization loop: skip the
`conn` key; turn a top-level `datetime` value into its ISO string; keep every
other value that `is_serializable` accepts and drop (with a log line) every
value it rejects.  The loop never raises: `is_serializable` swallows the
packing failure. -/
def serializeRecord : Dict → Dict
  | [] => []
  | (k, v) :: rest =>
      if k = "conn" then serializeRecord rest
      else if isDatetime v then (k, .vstr (isoformatOf v)) :: serializeRecord rest
      else if is_serializable v then (k, v) :: serializeRecord rest
      else serializeRecord rest

/-- Lines 127-138 over the whole directory: build `serializable_users`
record by record; every user keeps an entry, with unserializable fields
dropped from it. -/
def checkpoint_serialize : Users → Users
  | [] => []
  | (name, rec) :: rest => (name, serializeRecord rec) :: checkpoint_serialize rest

/-- Lines 123-125 of `checkpoint`: the notification loop calls
`user_is_connected` on every user (the self-healing side effect applies) and
sends a system message to those found connected.  Returns the updated
directory and the usernames notified. -/
def checkpoint_notify : Users → Users × List String
  | [] => ([], [])
  | (name, rec) :: rest =>
      let p := user_is_connected rec
      let q := checkpoint_notify rest
      ((name, p.2) :: q.1, if p.1 then name :: q.2 else q.2)

/-- Lines 115-170, `checkpoint()` up to the file write: notify connected
users, then serialize the directory.  The result pairs the directory as
mutated by the notification loop with the serialized form that is written
(and re-read for verification).  The file write, re-read and the
field-comparison logging of lines 146-170 have no effect on the directory
and are not modelled. -/
def checkpoint (us : Users) : Users × Users :=
  let p := checkpoint_notify us
  (p.1, checkpoint_serialize p.1)

/-- Lines 172-179, `load_checkpoint()`: read and unpack the checkpoint file if
present, else start with an empty directory.  The msgpack round trip returns
serialized dictionaries unchanged (strings, lists and dicts of them
round-trip; the source deliberately avoids tuples for this reason, lines
229-231), so the file contents are the `checkpoint_serialize` output of the
directory at save time. -/
def load_checkpoint (fileContents : Option Users) : Users :=
  match fileContents with
  | some us => us
  | none => []

/-! ## Python string primitives used by the parsers -/

/-- The ASCII whitespace characters that Python `str.strip()` removes and
that occur in this protocol: space, tab, newline, carriage return. -/
def isWS (c : Char) : Bool := c = ' ' || c = '\t' || c = '\n' || c = '\r'

/-- Python `s.strip()` on the character set that occurs in this protocol:
drop leading and trailing ASCII whitespace. -/
def pyStrip (s : String) : String :=
  String.mk (((s.data.dropWhile isWS).reverse.dropWhile isWS).reverse)

/-- Helper for `pySplit`: scan the characters, cutting at every single
space and keeping empty fields. -/
def splitSp : List Char → List Char → List String
  | [], acc => [String.mk acc.reverse]
  | c :: rest, acc =>
      if c = ' ' then String.mk acc.reverse :: splitSp rest []
      else splitSp rest (c :: acc)

/-- Python `s.split(' ')`: split at every single space, keeping empty fields;
`''.split(' ')` gives `['']`. -/
def pySplit (s : String) : List String := splitSp s.data []

/-- Python `' '.join(parts)`. -/
def pyJoin (parts : List String) : String := String.intercalate " " parts

/-- Python `received_data.endswith(chr(10))`, the read-loop guard at lines
194 and 319. -/
def pyEndsNL (s : String) : Bool :=
  match s.data.getLast? with
  | some c => c = '\n'
  | none => false

/-- Python `bytes.decode(utf8name)` restricted to the ASCII plane: bytes
below 128 decode to the matching characters; any byte 128 or above is
treated as a decode failure (UnicodeDecodeError).  Valid multi-byte UTF-8
would decode in Python, but every byte sequence the claims exercise is pure
ASCII, so the restriction is never observable in the theorems below. -/
def asciiDecode (bs : List Nat) : Option String :=
  if bs.all (fun b => b < 128) then some (String.mk (bs.map Char.ofNat)) else none

/-- The bytes of an ASCII string, for building raw input chunks. -/
def asciiBytes (s : String) : List Nat := s.data.map Char.toNat

/-! ## Session handler: read phase (lines 193-216) -/

/-- Lines 193-216: assemble `received_data` for one command.  `chunks` lists
the successive `conn.recv(1024)` results; once exhausted, `recv` returns an
empty buffer (the peer has closed), which breaks the inner loop without a
complete line (line 197-198).  Each chunk is scrubbed, decoded once and
appended once (the decode/echo/append block at lines 213-216 sits outside the
per-byte loop here, unlike the login loop at lines 338-344).  Returns `none`
on a decode failure (UnicodeDecodeError, caught by the handler at line 292,
which then breaks), otherwise the assembled text and the unread chunks.  The
echo of line 215 repeats the decoded text verbatim and is not recorded. -/
def handle_client_read : List (List Nat) → String → Option (String × List (List Nat))
  | [], acc => some (acc, [])
  | c :: rest, acc =>
      if pyEndsNL acc then some (acc, c :: rest)
      else
        match asciiDecode (scrub c) with
        | none => none
        | some data => handle_client_read rest (acc ++ data)

/-! ## Session handler: command dispatch (lines 218-294) -/

/-- The result of one pass through the body of the session loop: the
directory afterwards, the messages sent (paired with the username whose
connection receives each), and whether the loop was exited (`break` from
QUIT at line 287 or from the catch-all exception handler at lines 292-294). -/
structure StepResult where
  users : Users
  sent : List (String × String)
  broke : Bool

/-- Python f-string rendering of a stored value.  In the source only ISO
text reaches this point (`last_active` always holds `isoformat()` output);
the remaining cases approximate `str()` and are never exercised by the
claims. -/
def pyRender : Val → String
  | .vstr s => s
  | .vint n => toString n
  | .vdt iso => iso
  | .vnone => "None"
  | .vsock _ => "socket"
  | .vlist _ => "list"
  | .vdict _ => "dict"

/-- Lines 249-252 of the WHO branch: one numbered line per user in the
directory.  A record without a `last_active` key would raise KeyError
(`none` here). -/
def whoLines : Users → Nat → Option String
  | [], _ => some ""
  | (name, rec) :: rest, num =>
      match alget rec "last_active" with
      | none => none
      | some v =>
          match whoLines rest (num + 1) with
          | none => none
          | some s =>
              some ("#" ++ toString (num + 1) ++ " - " ++ name ++ " - Last active: "
                ++ pyRender v ++ "\r\n" ++ s)

/-- Lines 248-253: the full WHO response. -/
def whoResponse (us : Users) : Option String :=
  match whoLines us 0 with
  | none => none
  | some s => some ("Online users:\r\n" ++ s)

/-- Lines 280-281: one line per periodic task in the TASKS response. -/
def taskLines : PyDict TaskInfo → String
  | [] => ""
  | (name, info) :: rest =>
      name ++ " - Interval: " ++ toString info.interval ++ ", Last run: "
        ++ toString info.last_run ++ "\r\n" ++ taskLines rest

/-- Lines 256-259: the HELP CONTRIBUTING text. -/
def helpContributingText : String :=
  "Contributions to this project are welcome. Please read the CONTRIBUTING.md file for more information.\r\n"
  ++ "You can also visit the source code repository at: https://github.com/mindfulvector/Nayak-Server\r\n"
  ++ "If you have any questions, please contact us at nayak@fastmail.com\r\n"

/-- Line 262: `json.dumps(server_metadata)`, the HELP ABOUT response.  The
metadata of lines 32-49 is static text whose exact JSON rendering no claim
inspects; it is abbreviated here. -/
def server_metadata_json : String := "server_metadata as JSON"

/-- Line 265: the unknown-HELP-topic error. -/
def helpTopicErrorText : String :=
  "ERROR: HELP topic not found. Some commands do not have additional documentation beyond the command definition in the HELP output. Type HELP for available commands and topics.\r\n"

/-- Lines 267-274: the HELP menu. -/
def helpMenuText : String :=
  "Available commands:\r\n"
  ++ "SEND <username> <message> - Send a message to a user\r\n"
  ++ "WHO - List all online users\r\n"
  ++ "HELP - Display this help message\r\n"
  ++ "HELP ABOUT - Display information about the server\r\n"
  ++ "QUIT - Disconnect from the server\r\n"
  ++ "TICKS - Display the current server tick count\r\n"
  ++ "TASKS - Display the current periodic tasks and their last run times\r\n"

/-- Line 289: the unknown-command error. -/
def notUnderstoodText : String :=
  "ERROR: Command was not understood. Type HELP for available commands.\r\n"

/-- Lines 234-289, the command dispatch of `handle_client`, applied after the
command log has been appended.  In the SEND branch, `command_parts[1]` with no
second token raises IndexError, and `users[recipient][mr].append` with the
inbox key `mr` missing or holding a non-list raises KeyError/AttributeError;
each lands in the catch-all at lines 292-294, which logs and breaks, so those
paths return with `broke = true` and nothing sent.  The stored inbox entry at
line 240 is the dictionary with exactly the keys `timestamp` (the raw
datetime object) and `message`. -/
def handle_client_dispatch (us : Users) (username : String)
    (command_parts : List String) (ts : String) (sched : SchedState) : StepResult :=
  let command := command_parts.headD ""
  if command = "SEND" then
    match command_parts.get? 1 with
    | none => ⟨us, [], true⟩
    | some recipient =>
        let message := pyJoin (command_parts.drop 2)
        match alget us recipient with
        | none =>
            ⟨us, [(username, "ERROR: User `" ++ recipient ++ "` does not exist.\r\n")], false⟩
        | some rrec =>
            let p := user_is_connected rrec
            let us2 := alset us recipient p.2
            if p.1 then
              match alget p.2 "messages_received" with
              | some (.vlist inbox) =>
                  let entry : Val :=
                    .vdict [("timestamp", .vdt ts), ("message", .vstr message)]
                  let us3 := alset us2 recipient
                    (alset p.2 "messages_received" (.vlist (inbox ++ [entry])))
                  ⟨us3,
                   [(recipient, "[" ++ ts ++ "] " ++ username ++ ": " ++ message ++ "\r\n"),
                    (username, "OK: Message sent to " ++ recipient ++ ".\r\n")], false⟩
              | _ => ⟨us2, [], true⟩
            else
              ⟨us2, [(username, "ERROR: User `" ++ recipient ++ "` is not online.\r\n")], false⟩
  else if command = "WHO" then
    match whoResponse us with
    | some resp => ⟨us, [(username, resp)], false⟩
    | none => ⟨us, [], true⟩
  else if command = "HELP" then
    if 1 < command_parts.length then
      if command_parts.get? 1 = some "CONTRIBUTING" then
        ⟨us, [(username, helpContributingText)], false⟩
      else if command_parts.get? 1 = some "ABOUT" then
        ⟨us, [(username, server_metadata_json)], false⟩
      else
        ⟨us, [(username, helpTopicErrorText)], false⟩
    else
      ⟨us, [(username, helpMenuText)], false⟩
  else if command = "TICKS" then
    ⟨us, [(username, "OK: Server ticks: " ++ toString sched.server_ticks ++ "\r\n")], false⟩
  else if command = "TASKS" then
    ⟨us, [(username, "Periodic tasks:\r\n" ++ taskLines sched.period_tasks)], false⟩
  else if command = "QUIT" then
    match alget us username with
    | some urec =>
        ⟨alset us username (alset urec "conn" .vnone), [(username, "OK: Goodbye.\r\n")], true⟩
    | none => ⟨us, [], true⟩
  else if command = "" then ⟨us, [], false⟩
  else ⟨us, [(username, notUnderstoodText)], false⟩

/-- Lines 218-294: process one assembled `received_data` (which may be empty
or lack its newline when the peer closed mid-read): update `last_active`
(line 221), split into tokens (lines 223-224), create the `commands` list if
missing (lines 226-227), append `[timestamp, raw_line]` to it (line 232),
then dispatch.  A missing `users[username]` record raises KeyError, and a
non-list `commands` value raises AttributeError; both land in the catch-all
at lines 292-294 (`broke = true`). -/
def handle_client_process (us : Users) (username : String) (received_data : String)
    (ts : String) (sched : SchedState) : StepResult :=
  match alget us username with
  | none => ⟨us, [], true⟩
  | some urec0 =>
      let urec1 := alset urec0 "last_active" (.vstr ts)
      let us1 := alset us username urec1
      let command_parts := pySplit (pyStrip received_data)
      let urec2 := if (alget urec1 "commands").isSome then urec1
                   else alset urec1 "commands" (.vlist [])
      let us2 := alset us1 username urec2
      match alget urec2 "commands" with
      | some (.vlist cmds) =>
          let urec3 := alset urec2 "commands"
            (.vlist (cmds ++ [.vlist [.vstr ts, .vstr received_data]]))
          let us3 := alset us2 username urec3
          handle_client_dispatch us3 username command_parts ts sched
      | _ => ⟨us2, [], true⟩

/-- One full iteration of the `while True` session loop (lines 190-294):
read a line, then process it.  The `server_tick()` calls interleaved at lines
191, 195 and 203 advance the scheduler modelled by `server_tick` and touch no
session or directory state read here; the only coupling is a `checkpoint`
task firing, which never raises and whose notify loop only rewrites stale
connection fields to the None they already hold in these directories. -/
def handle_client_iteration (us : Users) (username : String)
    (chunks : List (List Nat)) (ts : String) (sched : SchedState) :
    StepResult × List (List Nat) :=
  match handle_client_read chunks "" with
  | none => (⟨us, [], true⟩, [])
  | some lr => (handle_client_process us username lr.1 ts sched, lr.2)

/-! ## Connection acceptor: login read loop (lines 318-344) -/

/-- Lines 327-344: the per-byte scan of the AWAITING_LOGIN read loop.  Unlike
the session loop (lines 202-216), the decode/echo/append block at lines
338-344 is indented inside the per-byte loop, so after every byte the whole
accumulated `processed_data` is decoded again, echoed again, and appended to
`received_data` again; and when the IAC branch leaves `processed_data` empty,
`data` is empty and line 342 breaks out of the byte loop, discarding the rest
of the chunk.  Returns the text this chunk appends to `received_data`
(`none` on a decode failure, which `start_server` does not catch).  The echo
of line 343 repeats exactly the appended text and is not recorded. -/
def start_server_scan : List Nat → List Nat → String → Option String
  | [], _, acc => some acc
  | b :: rest, processed, acc =>
      if b = 255 then
        match asciiDecode processed with
        | none => none
        | some data =>
            if data = "" then some acc
            else
              match rest with
              | _ :: _ :: rest2 => start_server_scan rest2 processed (acc ++ data)
              | _ => some (acc ++ data)
      else
        match asciiDecode (processed ++ [b]) with
        | none => none
        | some data =>
            if data = "" then some acc
            else start_server_scan rest (processed ++ [b]) (acc ++ data)

/-- Lines 318-344: assemble `received_data` during AWAITING_LOGIN from the
successive `recv` chunks, using the buggy per-byte scan above.  `none` models
an uncaught UnicodeDecodeError (the acceptor thread would die). -/
def start_server_read : List (List Nat) → String → Option String
  | [], acc => some acc
  | c :: rest, acc =>
      if pyEndsNL acc then some acc
      else
        match start_server_scan c [] "" with
        | none => none
        | some appended => start_server_read rest (acc ++ appended)

/-! ## Connection acceptor: LOGIN validation (lines 346-378) -/

/-- How one accepted connection's LOGIN processing ends (lines 346-378).
`noLine` is the fall-through when `received_data` is empty (line 349: the
whole block is skipped and the accept loop just continues); `crashed` is an
exception the accept loop does not catch, which terminates the acceptor
thread — the `continue` of the reject branches never runs. -/
inductive LoginOutcome where
  | noLine
  | rejectedNotLogin
  | rejectedShort
  | rejectedOnline
  | acceptedExisting
  | acceptedNew
  | crashed
deriving DecidableEq, Repr

/-- The result of processing one assembled login line: the outcome, the
directory afterwards, and the text lines sent to this connection. -/
structure LoginResult where
  outcome : LoginOutcome
  users : Users
  sent : List String

/-- Lines 346-378: validate the assembled `received_data`.  In order: skip
everything if the line is empty; strip and split on spaces; reject unless the
first token is LOGIN; take `cmd[1]` as the username — an IndexError if no
second token exists, uncaught in `start_server`, so the acceptor crashes;
reject a username shorter than 4 characters; for an existing username, reject
if still connected, else attach the new connection; for a new username,
create the record of line 373 and run `checkpoint()` immediately (its notify
loop may clear stale connections of other users). -/
def start_server_login (us : Users) (received_data : String) (fd : Int)
    (ts : String) : LoginResult :=
  if received_data = "" then ⟨.noLine, us, []⟩
  else
    let cmd := pySplit (pyStrip received_data)
    if cmd.headD "" ≠ "LOGIN" then
      ⟨.rejectedNotLogin, us, ["ERROR: You must first login to the server. Bye.\r\n"]⟩
    else
      match cmd.get? 1 with
      | none => ⟨.crashed, us, []⟩
      | some username =>
        if username.length < 4 then
          ⟨.rejectedShort, us, ["ERROR: Username must be at least 4 characters long. Bye.\r\n"]⟩
        else
          match alget us username with
          | some urec =>
              let p := user_is_connected urec
              let us2 := alset us username p.2
              if p.1 then
                ⟨.rejectedOnline, us2, ["ERROR: Username is already online. Bye.\r\n"]⟩
              else
                ⟨.acceptedExisting, alset us2 username (alset p.2 "conn" (.vsock fd)), []⟩
          | none =>
              let newRec : Dict :=
                [("conn", .vsock fd), ("commands", .vlist []),
                 ("messages_received", .vlist []),
                 ("first_login", .vstr ts), ("last_active", .vstr ts)]
              let us2 := alset us username newRec
              ⟨.acceptedNew, (checkpoint us2).1, []⟩

/-! ## Concrete states used by the closed theorems -/

/-- A fresh online record as created at line 373, with the given descriptor
and timestamp text. -/
def freshRecord (fd : Int) (ts : String) : Dict :=
  [("conn", Val.vsock fd), ("commands", Val.vlist []),
   ("messages_received", Val.vlist []),
   ("first_login", Val.vstr ts), ("last_active", Val.vstr ts)]

/-- The claim's example input for the non-serializable-field policy: one
user, offline, whose inbox holds one delivered message — exactly the record
shape `handle_client` produces at line 240, where the `timestamp` entry of
the inbox dictionary is a raw `datetime` object nested inside the
`messages_received` list, which msgpack cannot encode. -/
def usersWithInboxDatetime : Users :=
  [("alice",
    [("conn", Val.vnone),
     ("commands", Val.vlist []),
     ("messages_received",
       Val.vlist [Val.vdict [("timestamp", Val.vdt "2024-01-01T00:00:00"),
                             ("message", Val.vstr "hello")]]),
     ("first_login", Val.vstr "2024-01-01T00:00:00"),
     ("last_active", Val.vstr "2024-01-01T00:00:00")])]

/-- Scenario B: alice and bob both logged in with live sockets. -/
def usersScenarioB : Users :=
  [("alice", freshRecord 7 "t0"), ("bob", freshRecord 8 "t0")]

/-- A directory with alice present but offline (connection cleared), as
after a QUIT or self-healed liveness check. -/
def usersAliceOffline : Users :=
  [("alice",
    [("conn", Val.vnone), ("commands", Val.vlist []),
     ("messages_received", Val.vlist []),
     ("first_login", Val.vstr "t0"), ("last_active", Val.vstr "t0")])]

/-- A directory with alice offline (connection None) and bob online, for
exercising the offline-recipient SEND error. -/
def usersBobOnlineAliceOffline : Users :=
  [("alice",
    [("conn", Val.vnone), ("commands", Val.vlist []),
     ("messages_received", Val.vlist []),
     ("first_login", Val.vstr "t0"), ("last_active", Val.vstr "t0")]),
   ("bob", freshRecord 8 "t0")]

/-- The directory checkpointed in the restored-records witness: alice online
with descriptor 3. -/
def usersBeforeSave : Users := [("alice", freshRecord 3 "t0")]

/-- The alice record as it comes back from that checkpoint: the `conn` key
is gone entirely, everything else kept. -/
def aliceRestored : Dict :=
  [("commands", Val.vlist []), ("messages_received", Val.vlist []),
   ("first_login", Val.vstr "t0"), ("last_active", Val.vstr "t0")]

/-! # Theorems -/

/-! ## Association-list lemmas -/

theorem alget_alset_self {α : Type} (d : PyDict α) (k : String) (v : α) :
    alget (alset d k v) k = some v := by
  induction d with
  | nil => simp [alget, alset]
  | cons hd tl ih =>
      obtain ⟨k1, v1⟩ := hd
      by_cases h : k1 = k <;> simp [alget, alset, h, ih]

theorem alget_alset_ne {α : Type} (d : PyDict α) {k1 k2 : String} (v : α)
    (h : k1 ≠ k2) : alget (alset d k1 v) k2 = alget d k2 := by
  induction d with
  | nil => simp [alget, alset, h]
  | cons hd tl ih =>
      obtain ⟨ka, va⟩ := hd
      by_cases h2 : ka = k1
      · subst h2; simp [alget, alset, h]
      · by_cases h3 : ka = k2
        · subst h3; simp [alget, alset, h2]
        · simp [alget, alset, h2, h3, ih]

theorem alset_alset_same {α : Type} (d : PyDict α) (k : String) (v w : α) :
    alset (alset d k v) k w = alset d k w := by
  induction d with
  | nil => simp [alset]
  | cons hd tl ih =>
      obtain ⟨k1, v1⟩ := hd
      by_cases h : k1 = k <;> simp [alset, h, ih]

/-! ## C1: tick counter -/

theorem server_tick_ticks (s : SchedState) :
    (server_tick s).1.server_ticks = s.server_ticks + 1 := rfl

theorem runTicks_ticks (n : Nat) (s : SchedState) :
    (runTicks n s).server_ticks = s.server_ticks + n := by
  induction n generalizing s with
  | zero => rfl
  | succ m ih =>
      show (runTicks m (server_tick s).1).server_ticks = s.server_ticks + (m + 1)
      rw [ih, server_tick_ticks]
      omega

/-- The tick counter of the claim: after 65536 calls to `tick()` starting from
counter 0, the counter holds 65536 in the source (there is no `% 65536`
anywhere in `server_tick`), not 0 as both the claim and the source's own
comment at line 57 state. -/
theorem C1_tick_counter_does_not_wrap :
    (runTicks 65536 initSched).server_ticks = 65536 ∧
      0 < (runTicks 65536 initSched).server_ticks := by
  have h := runTicks_ticks 65536 initSched
  refine ⟨h.trans (by norm_num [initSched]), ?_⟩
  rw [h]
  norm_num [initSched]

/-! ## C8: scrubber -/

/-- The scrubber of the claim: at each marker byte exactly 3 bytes are
skipped regardless of which two bytes follow, every other byte passes through
in order, a trailing marker with fewer than 2 following bytes truncates the
skip at the chunk boundary, and marker triplets interleaved with non-marker
text bytes yield exactly the text bytes in order. -/
theorem C8_scrubber_skips_and_passes :
    (∀ x y rest, scrub (255 :: x :: y :: rest) = scrub rest) ∧
    (∀ b rest, b ≠ 255 → scrub (b :: rest) = b :: scrub rest) ∧
    scrub [255] = [] ∧ (∀ x, scrub [255, x] = []) ∧
    ∀ segs : List Seg, SegsWF segs → scrub (segsBytes segs) = segsText segs := by
  have hskip : ∀ (x y : Nat) (rest : List Nat), scrub (255 :: x :: y :: rest) = scrub rest := by
    intro x y rest
    rfl
  have hpass : ∀ (b : Nat) (rest : List Nat), b ≠ 255 → scrub (b :: rest) = b :: scrub rest := by
    intro b rest h
    conv_lhs => rw [scrub.eq_def]
    simp [h]
  refine ⟨hskip, hpass, rfl, fun x => rfl, ?_⟩
  intro segs hwf
  induction segs with
  | nil => simp only [segsBytes, segsText]; rw [scrub]
  | cons s rest ih =>
      have hrest : SegsWF rest := fun t ht => hwf t (List.mem_cons_of_mem _ ht)
      cases s with
      | txt b =>
          have hb : b ≠ 255 := by
            have := hwf (.txt b) (List.mem_cons_self _ _)
            simpa [segOK] using this
          show scrub (b :: segsBytes rest) = b :: segsText rest
          rw [hpass b _ hb, ih hrest]
      | marker x y =>
          show scrub (255 :: x :: y :: segsBytes rest) = segsText rest
          rw [hskip, ih hrest]

/-- Witness: scrubbing two marker triplets interleaved with the text bytes of
the string HI! yields exactly those text bytes. -/
theorem C8_scrubber_witness :
    scrub [255, 251, 1, 72, 105, 255, 253, 3, 33] = [72, 105, 33] := by
  have h := C8_scrubber_skips_and_passes.2.2.2.2
    [Seg.marker 251 1, Seg.txt 72, Seg.txt 105, Seg.marker 253 3, Seg.txt 33]
    (by unfold SegsWF; decide)
  exact h

/-! ## C9: liveness check -/

/-- The liveness check of the claim: it returns true exactly when a connection
handle is present and its descriptor is valid (a socket with `fileno() ≠ -1`);
whenever it returns false — handle absent, None, or an invalid socket — the
returned record has its connection field explicitly cleared to None; and a
true result leaves the record untouched. -/
theorem C9_liveness_check (rec : Dict) (h : ConnWF rec) :
    ((user_is_connected rec).1 = true ↔
        ∃ fd, alget rec "conn" = some (Val.vsock fd) ∧ fd ≠ -1) ∧
    ((user_is_connected rec).1 = false →
        alget (user_is_connected rec).2 "conn" = some Val.vnone) ∧
    ((user_is_connected rec).1 = true → (user_is_connected rec).2 = rec) := by
  rcases h with h | h | ⟨fd, h⟩
  · simp [user_is_connected, h, alget_alset_self]
  · simp [user_is_connected, h, alget_alset_self]
  · by_cases hfd : fd = -1
    · subst hfd
      simp [user_is_connected, h, alget_alset_self]
    · simp [user_is_connected, h, hfd, alget_alset_self]

/-- Witness: a record holding a closed socket (descriptor -1) fails the check
and comes back with its connection field cleared to None. -/
theorem C9_liveness_check_witness :
    (user_is_connected [("conn", Val.vsock (-1))]).1 = false ∧
      alget (user_is_connected [("conn", Val.vsock (-1))]).2 "conn" = some Val.vnone := by
  have h := C9_liveness_check [("conn", Val.vsock (-1))] (Or.inr (Or.inr ⟨-1, rfl⟩))
  exact ⟨rfl, h.2.1 rfl⟩

/-! ## C5: checkpoint and non-serializable fields -/

theorem alget_none_of_not_mem_keys {α : Type} (d : PyDict α) (k : String)
    (h : k ∉ d.map Prod.fst) : alget d k = none := by
  induction d with
  | nil => rfl
  | cons hd tl ih =>
      obtain ⟨k1, v1⟩ := hd
      simp only [List.map_cons, List.mem_cons, not_or] at h
      have hne : ¬ k1 = k := fun e => h.1 e.symm
      simp [alget, hne, ih h.2]

theorem serializeRecord_absent (d : Dict) (k : String) (h : alget d k = none) :
    alget (serializeRecord d) k = none := by
  induction d with
  | nil => rfl
  | cons kv rest ih =>
      obtain ⟨k1, v1⟩ := kv
      by_cases hk1 : k1 = k
      · rw [alget, if_pos hk1] at h
        cases h
      · rw [alget, if_neg hk1] at h
        by_cases hc : k1 = "conn" <;> by_cases hd : isDatetime v1 <;>
          by_cases hs : is_serializable v1 <;>
          simp [serializeRecord, alget, hc, hd, hs, hk1, ih h]

theorem serializeRecord_drops_conn (d : Dict) :
    alget (serializeRecord d) "conn" = none := by
  induction d with
  | nil => rfl
  | cons kv rest ih =>
      obtain ⟨k1, v1⟩ := kv
      by_cases hc : k1 = "conn" <;> by_cases hd : isDatetime v1 <;>
        by_cases hs : is_serializable v1 <;>
        simp [serializeRecord, alget, hc, hd, hs, ih]

theorem serializeRecord_drops_unpackable (d : Dict) (k : String) (v : Val)
    (hnodup : (d.map Prod.fst).Nodup)
    (hv : alget d k = some v)
    (hdt : isDatetime v = false)
    (hns : is_serializable v = false) :
    alget (serializeRecord d) k = none := by
  induction d with
  | nil => cases hv
  | cons kv rest ih =>
      obtain ⟨k1, v1⟩ := kv
      simp only [List.map_cons, List.nodup_cons] at hnodup
      by_cases hk1 : k1 = k
      · rw [alget, if_pos hk1] at hv
        cases hv
        have habs : alget rest k = none :=
          alget_none_of_not_mem_keys rest k (hk1 ▸ hnodup.1)
        by_cases hc : k1 = "conn" <;>
          simp [serializeRecord, alget, hc, hdt, hns, hk1,
            serializeRecord_absent rest k habs]
      · rw [alget, if_neg hk1] at hv
        by_cases hc : k1 = "conn" <;> by_cases hd1 : isDatetime v1 <;>
          by_cases hs1 : is_serializable v1 <;>
          simp [serializeRecord, alget, hc, hd1, hs1, hk1, ih hnodup.2 hv]

theorem checkpoint_serialize_alget (us : Users) (name : String) :
    alget (checkpoint_serialize us) name = (alget us name).map serializeRecord := by
  induction us with
  | nil => rfl
  | cons p rest ih =>
      obtain ⟨n, rec⟩ := p
      by_cases hn : n = name <;> simp [checkpoint_serialize, alget, hn, ih]

/-- The non-serializable-field policy of the claim: a field value that the
serialization format cannot encode (and that is not a top-level datetime,
which line 134 converts instead) is dropped from that record's serialized
form — `is_serializable` catches the packing failure, logs it and returns
False — while the checkpoint still completes with an entry for every record
(conjunct two: each user's serialized record is present).  Serialization is
a total function: the save never aborts.  Conjunct three runs the claim's
example, a datetime object nested inside the messages_received list: the
checkpoint completes with exactly that field removed. -/
theorem C5_nonserializable_fields_dropped_save_completes
    (d : Dict) (k : String) (v : Val)
    (hnodup : (d.map Prod.fst).Nodup)
    (hv : alget d k = some v)
    (hdt : isDatetime v = false)
    (hns : is_serializable v = false) :
    alget (serializeRecord d) k = none ∧
    (∀ us name, alget (checkpoint_serialize us) name
        = (alget us name).map serializeRecord) ∧
    (checkpoint usersWithInboxDatetime).2
      = [("alice", [("commands", Val.vlist []),
                    ("first_login", Val.vstr "2024-01-01T00:00:00"),
                    ("last_active", Val.vstr "2024-01-01T00:00:00")])] :=
  ⟨serializeRecord_drops_unpackable d k v hnodup hv hdt hns,
   checkpoint_serialize_alget, rfl⟩

/-- Witness: serializing alice's record with one delivered message drops the
messages_received field (the datetime nested inside the list cannot be
encoded) rather than aborting. -/
theorem C5_nonserializable_fields_dropped_witness :
    alget (serializeRecord
      [("conn", Val.vnone), ("commands", Val.vlist []),
       ("messages_received",
         Val.vlist [Val.vdict [("timestamp", Val.vdt "2024-01-01T00:00:00"),
                               ("message", Val.vstr "hello")]]),
       ("first_login", Val.vstr "2024-01-01T00:00:00"),
       ("last_active", Val.vstr "2024-01-01T00:00:00")])
      "messages_received" = none :=
  (C5_nonserializable_fields_dropped_save_completes
    [("conn", Val.vnone), ("commands", Val.vlist []),
     ("messages_received",
       Val.vlist [Val.vdict [("timestamp", Val.vdt "2024-01-01T00:00:00"),
                             ("message", Val.vstr "hello")]]),
     ("first_login", Val.vstr "2024-01-01T00:00:00"),
     ("last_active", Val.vstr "2024-01-01T00:00:00")]
    "messages_received"
    (Val.vlist [Val.vdict [("timestamp", Val.vdt "2024-01-01T00:00:00"),
                           ("message", Val.vstr "hello")]])
    (by decide) rfl rfl rfl).1

/-! ## C6: LOGIN validation -/

/-- A login line whose first token is LOGIN but which carries no username
token does not produce the rejection the claim describes: `cmd[1]` raises an
uncaught IndexError, no error message is sent, and the accept loop is
terminated instead of continuing. -/
theorem C6_missing_username_crashes_acceptor :
    (start_server_login [] "LOGIN\n" 5 "2024-01-01T00:00:00").outcome
        = LoginOutcome.crashed ∧
      (start_server_login [] "LOGIN\n" 5 "2024-01-01T00:00:00").sent = [] := by
  exact ⟨rfl, rfl⟩

/-! ## C3: peer disconnect and the session loop -/

/-- Peer disconnect does not terminate the session loop: with the peer closed
(every `recv` returns empty, modelled by an exhausted chunk list), a full
iteration of the loop for the logged-out alice record leaves the loop running
(`broke = false`) and appends an empty-line entry to her command log; a
second iteration appends another.  The inner read loop's `break` at line 198
only reaches the processing code at lines 218-294, which logs the empty line
and falls back into `while True`, so entries keep being appended after the
peer has closed and the handler never exits. -/
theorem C3_disconnect_keeps_looping_and_logging :
    ((handle_client_iteration usersAliceOffline "alice" [] "t1" initSched).1.broke = false) ∧
    ((handle_client_iteration
        (handle_client_iteration usersAliceOffline "alice" [] "t1" initSched).1.users
        "alice" [] "t2" initSched).1.broke = false) ∧
    ((alget (handle_client_iteration
        (handle_client_iteration usersAliceOffline "alice" [] "t1" initSched).1.users
        "alice" [] "t2" initSched).1.users "alice").bind (fun r => alget r "commands")
      = some (Val.vlist [Val.vlist [Val.vstr "t1", Val.vstr ""],
                         Val.vlist [Val.vstr "t2", Val.vstr ""]])) :=
  ⟨rfl, rfl, rfl⟩

/-! ## C7: the AWAITING_LOGIN read loop -/

/-- The login read loop does not assemble the scrubbed text once: for the
single chunk carrying the bytes of LOGIN alice with a newline, the block at
lines 338-344 (indented inside the per-byte loop) re-appends the whole
decoded prefix after every byte, so `received_data` is the concatenation of
all twelve prefixes, its first token is not LOGIN, and the login is rejected
instead of parsing into the tokens LOGIN and alice. -/
theorem C7_login_read_repeats_prefixes :
    start_server_read [asciiBytes "LOGIN alice\n"] ""
        = some "LLOLOGLOGILOGINLOGIN LOGIN aLOGIN alLOGIN aliLOGIN alicLOGIN aliceLOGIN alice\n" ∧
    (pySplit (pyStrip
        "LLOLOGLOGILOGINLOGIN LOGIN aLOGIN alLOGIN aliLOGIN alicLOGIN aliceLOGIN alice\n")).headD ""
        = "LLOLOGLOGILOGINLOGIN" ∧
    (start_server_login []
        "LLOLOGLOGILOGINLOGIN LOGIN aLOGIN alLOGIN aliLOGIN alicLOGIN aliceLOGIN alice\n"
        5 "t0").outcome
      = LoginOutcome.rejectedNotLogin :=
  ⟨rfl, rfl, rfl⟩

/-! ## C2: SEND delivery and the inbox entry -/

/-- The inbox entry appended by SEND does not record the sender: in Scenario
B (bob sends `SEND alice hello` while alice is online), alice's inbox gains
exactly the dictionary of line 240 with the keys `timestamp` and `message`
and no `sender` key — no part of the stored entry mentions bob — even though
bob does receive the confirmation. -/
theorem C2_inbox_entry_lacks_sender :
    ((alget (handle_client_process usersScenarioB "bob" "SEND alice hello\n" "t1" initSched).users
        "alice").bind (fun r => alget r "messages_received")
      = some (Val.vlist [Val.vdict [("timestamp", Val.vdt "t1"),
                                    ("message", Val.vstr "hello")]])) ∧
    alget [("timestamp", Val.vdt "t1"), ("message", Val.vstr "hello")] "sender" = none ∧
    (handle_client_process usersScenarioB "bob" "SEND alice hello\n" "t1" initSched).sent
      = [("alice", "[t1] bob: hello\r\n"), ("bob", "OK: Message sent to alice.\r\n")] :=
  ⟨rfl, rfl, rfl⟩

/-! ## C4: command errors and the session loop -/

/-- A SEND line with no recipient token is not handled within the session:
`command_parts[1]` raises IndexError, the catch-all at lines 292-294 breaks,
and the session loop ends with nothing sent to the client. -/
theorem C4_send_without_recipient_breaks_loop :
    (handle_client_process usersScenarioB "alice" "SEND\n" "t1" initSched).broke = true ∧
    (handle_client_process usersScenarioB "alice" "SEND\n" "t1" initSched).sent = [] :=
  ⟨rfl, rfl⟩

/-- The amended login validation: a LOGIN line whose username token is
present but shorter than 4 characters is rejected with the length error, the
connection is closed, no record is created (the directory is unchanged) and
the accept loop continues; but a LOGIN line with no username token at all
instead raises an uncaught IndexError that terminates the accept loop, with
no error message sent. -/
theorem C6_short_username_rejected_but_missing_token_crashes
    (us : Users) (received_data username : String) (fd : Int) (ts : String)
    (h1 : received_data ≠ "")
    (h2 : pySplit (pyStrip received_data) = ["LOGIN", username]) :
    (username.length < 4 →
      start_server_login us received_data fd ts
        = ⟨.rejectedShort, us,
           ["ERROR: Username must be at least 4 characters long. Bye.\r\n"]⟩) ∧
    (∀ rd2 : String, rd2 ≠ "" → pySplit (pyStrip rd2) = ["LOGIN"] →
      (start_server_login us rd2 fd ts).outcome = LoginOutcome.crashed ∧
      (start_server_login us rd2 fd ts).sent = []) := by
  constructor
  · intro hlen
    simp [start_server_login, h1, h2, hlen]
  · intro rd2 hne hp
    constructor <;> simp [start_server_login, hne, hp]

/-- Witness: the 3-character username abc is rejected with the length error
and the directory stays empty, while a bare LOGIN line crashes. -/
theorem C6_short_username_rejected_witness :
    start_server_login [] "LOGIN abc\n" 5 "t0"
      = ⟨.rejectedShort, [],
         ["ERROR: Username must be at least 4 characters long. Bye.\r\n"]⟩ :=
  (C6_short_username_rejected_but_missing_token_crashes [] "LOGIN abc\n" "abc" 5 "t0"
    (by decide) rfl).1 (by decide)

/-! ## C10: records restored from a checkpoint -/

/-- Restored records have no connection field and reconnect cleanly: every
record in the dictionary written by a checkpoint save (hence in the directory
`load()` restores) — including saves of directories whose users hold
delivered messages, since serialization is total and merely drops the
unpackable inbox — carries no `conn` key at all; the liveness check on such
a record does not raise — it returns false and leaves an explicit None in
the `conn` field — and a well-formed LOGIN for that username against the
restored directory is accepted as an offline reconnect, attaching the new
socket. -/
theorem C10_restored_records_reconnect (us : Users) (username : String) (rec : Dict)
    (hm : alget (checkpoint_serialize us) username = some rec) :
    alget rec "conn" = none ∧
    user_is_connected rec = (false, alset rec "conn" Val.vnone) ∧
    (∀ received_data : String, ∀ fd : Int, ∀ ts : String,
      received_data ≠ "" →
      pySplit (pyStrip received_data) = ["LOGIN", username] →
      ¬ username.length < 4 →
      (start_server_login (checkpoint_serialize us) received_data fd ts).outcome
          = LoginOutcome.acceptedExisting ∧
      (alget (start_server_login (checkpoint_serialize us) received_data fd ts).users
          username).bind (fun r2 => alget r2 "conn") = some (Val.vsock fd)) := by
  obtain ⟨d0, hd0, hrec⟩ :
      ∃ d0, alget us username = some d0 ∧ rec = serializeRecord d0 := by
    have h := checkpoint_serialize_alget us username
    rw [hm] at h
    cases hd : alget us username with
    | none => rw [hd] at h; simp at h
    | some d0 =>
        rw [hd] at h
        exact ⟨d0, rfl, by simpa using h⟩
  have hconn : alget rec "conn" = none := by
    rw [hrec]
    exact serializeRecord_drops_conn d0
  have hlive : user_is_connected rec = (false, alset rec "conn" Val.vnone) := by
    unfold user_is_connected
    rw [hconn]
  refine ⟨hconn, hlive, ?_⟩
  intro received_data fd ts h1 h2 h3
  constructor <;>
    simp [start_server_login, h1, h2, h3, hm, hlive, alget_alset_self]

/-- Witness: checkpointing the one-user directory with alice online yields a
restored alice record without a `conn` key, and LOGIN alice against the
restored directory is accepted, storing the new socket descriptor 9. -/
theorem C10_restored_records_reconnect_witness :
    (start_server_login (checkpoint_serialize usersBeforeSave)
        "LOGIN alice\n" 9 "t1").outcome = LoginOutcome.acceptedExisting ∧
      (alget (start_server_login (checkpoint_serialize usersBeforeSave)
          "LOGIN alice\n" 9 "t1").users "alice").bind
          (fun r2 => alget r2 "conn") = some (Val.vsock 9) :=
  (C10_restored_records_reconnect usersBeforeSave "alice" aliceRestored
    rfl).2.2 "LOGIN alice\n" 9 "t1" (by decide) rfl (by decide)

/-! ## Shared shape of one processed command -/

/-- The preliminary steps of `handle_client_process` (update `last_active`,
ensure and append to `commands`) amount to a single record update of the
acting user, after which the dispatch of lines 234-289 runs; the updated
record keeps the `conn` and `messages_received` entries of the original. -/
theorem handle_client_process_dispatch
    (us : Users) (username : String) (urec : Dict) (received_data ts : String)
    (sched : SchedState)
    (hu : alget us username = some urec)
    (hc : alget urec "commands" = none ∨ ∃ l, alget urec "commands" = some (Val.vlist l)) :
    ∃ urec3 : Dict,
      handle_client_process us username received_data ts sched
        = handle_client_dispatch (alset us username urec3) username
            (pySplit (pyStrip received_data)) ts sched ∧
      alget urec3 "conn" = alget urec "conn" ∧
      alget urec3 "messages_received" = alget urec "messages_received" := by
  have h1 : ("last_active" : String) ≠ "commands" := by decide
  have h2 : ("commands" : String) ≠ "conn" := by decide
  have h3 : ("last_active" : String) ≠ "conn" := by decide
  have h4 : ("commands" : String) ≠ "messages_received" := by decide
  have h5 : ("last_active" : String) ≠ "messages_received" := by decide
  rcases hc with hc | ⟨l, hc⟩
  · refine ⟨alset (alset urec "last_active" (Val.vstr ts)) "commands"
        (Val.vlist [Val.vlist [Val.vstr ts, Val.vstr received_data]]), ?_, ?_, ?_⟩
    · simp [handle_client_process, hu, alget_alset_ne _ _ h1, hc,
        alget_alset_self, alset_alset_same]
    · rw [alget_alset_ne _ _ h2, alget_alset_ne _ _ h3]
    · rw [alget_alset_ne _ _ h4, alget_alset_ne _ _ h5]
  · refine ⟨alset (alset urec "last_active" (Val.vstr ts)) "commands"
        (Val.vlist (l ++ [Val.vlist [Val.vstr ts, Val.vstr received_data]])), ?_, ?_, ?_⟩
    · simp [handle_client_process, hu, alget_alset_ne _ _ h1, hc,
        alget_alset_self, alset_alset_same]
    · rw [alget_alset_ne _ _ h2, alget_alset_ne _ _ h3]
    · rw [alget_alset_ne _ _ h4, alget_alset_ne _ _ h5]

/-- The amended propagation policy: every error the dispatcher itself
reports — an unknown SEND recipient, an offline SEND recipient, an
unrecognized command name, an unknown HELP topic — is answered with an ERROR
line and does not abort the session loop, and explicit QUIT does end it; but
a SEND line with no recipient token is not handled within the session: its
IndexError reaches the catch-all handler, which ends the loop, so malformed
commands terminate the session alongside transport failures and QUIT. -/
theorem C4_dispatcher_errors_continue_missing_arg_aborts
    (us : Users) (username : String) (urec : Dict) (ts : String) (sched : SchedState)
    (hu : alget us username = some urec)
    (hc : alget urec "commands" = none ∨ ∃ l, alget urec "commands" = some (Val.vlist l)) :
    (∀ received_data : String,
       pySplit (pyStrip received_data) = ["SEND"] →
       (handle_client_process us username received_data ts sched).broke = true ∧
       (handle_client_process us username received_data ts sched).sent = []) ∧
    (∀ received_data recipient : String, ∀ msgrest : List String,
       pySplit (pyStrip received_data) = "SEND" :: recipient :: msgrest →
       alget us recipient = none →
       (handle_client_process us username received_data ts sched).broke = false ∧
       (handle_client_process us username received_data ts sched).sent
         = [(username, "ERROR: User `" ++ recipient ++ "` does not exist.\r\n")]) ∧
    (∀ received_data c : String,
       pySplit (pyStrip received_data) = [c] →
       c ≠ "SEND" → c ≠ "WHO" → c ≠ "HELP" → c ≠ "TICKS" → c ≠ "TASKS" → c ≠ "QUIT" →
       c ≠ "" →
       (handle_client_process us username received_data ts sched).broke = false ∧
       (handle_client_process us username received_data ts sched).sent
         = [(username, notUnderstoodText)]) ∧
    (∀ received_data : String,
       pySplit (pyStrip received_data) = ["QUIT"] →
       (handle_client_process us username received_data ts sched).broke = true ∧
       (handle_client_process us username received_data ts sched).sent
         = [(username, "OK: Goodbye.\r\n")]) ∧
    (∀ received_data recipient : String, ∀ msgrest : List String, ∀ rrec : Dict,
       pySplit (pyStrip received_data) = "SEND" :: recipient :: msgrest →
       username ≠ recipient →
       alget us recipient = some rrec →
       alget rrec "conn" = some Val.vnone →
       (handle_client_process us username received_data ts sched).broke = false ∧
       (handle_client_process us username received_data ts sched).sent
         = [(username, "ERROR: User `" ++ recipient ++ "` is not online.\r\n")]) ∧
    (∀ received_data topic : String, ∀ trest : List String,
       pySplit (pyStrip received_data) = "HELP" :: topic :: trest →
       topic ≠ "CONTRIBUTING" → topic ≠ "ABOUT" →
       (handle_client_process us username received_data ts sched).broke = false ∧
       (handle_client_process us username received_data ts sched).sent
         = [(username, helpTopicErrorText)]) := by
  refine ⟨?_, ?_, ?_, ?_, ?_, ?_⟩
  · intro received_data hp
    obtain ⟨urec3, heq, _, _⟩ :=
      handle_client_process_dispatch us username urec received_data ts sched hu hc
    rw [heq, hp]
    constructor <;> simp [handle_client_dispatch]
  · intro received_data recipient msgrest hp hrecip
    obtain ⟨urec3, heq, _, _⟩ :=
      handle_client_process_dispatch us username urec received_data ts sched hu hc
    have hner : username ≠ recipient := by
      intro e
      rw [e, hrecip] at hu
      cases hu
    have hget : alget (alset us username urec3) recipient = none := by
      rw [alget_alset_ne _ _ hner, hrecip]
    rw [heq, hp]
    constructor <;> simp [handle_client_dispatch, hget]
  · intro received_data c hp hS hW hH hTi hTa hQ hB
    obtain ⟨urec3, heq, _, _⟩ :=
      handle_client_process_dispatch us username urec received_data ts sched hu hc
    rw [heq, hp]
    constructor <;> simp [handle_client_dispatch, hS, hW, hH, hTi, hTa, hQ, hB]
  · intro received_data hp
    obtain ⟨urec3, heq, _, _⟩ :=
      handle_client_process_dispatch us username urec received_data ts sched hu hc
    rw [heq, hp]
    constructor <;> simp [handle_client_dispatch, alget_alset_self]
  · intro received_data recipient msgrest rrec hp hner hr hoff
    obtain ⟨urec3, heq, _, _⟩ :=
      handle_client_process_dispatch us username urec received_data ts sched hu hc
    have hget : alget (alset us username urec3) recipient = some rrec := by
      rw [alget_alset_ne _ _ hner]
      exact hr
    have hlive : user_is_connected rrec = (false, alset rrec "conn" Val.vnone) := by
      unfold user_is_connected
      rw [hoff]
    rw [heq, hp]
    constructor <;> simp [handle_client_dispatch, hget, hlive]
  · intro received_data topic trest hp ht1 ht2
    obtain ⟨urec3, heq, _, _⟩ :=
      handle_client_process_dispatch us username urec received_data ts sched hu hc
    have hlen : 1 < ("HELP" :: topic :: trest).length := by
      simp only [List.length_cons]
      omega
    rw [heq, hp]
    constructor <;> simp [handle_client_dispatch, hlen, ht1, ht2]

/-- Witness: in Scenario B's directory, a SEND to the unknown carol keeps the
loop alive with the does-not-exist error, an unrecognized command keeps it
alive with the not-understood error, an unknown HELP topic keeps it alive
with the topic-not-found error, a SEND to the offline alice keeps it alive
with the not-online error, while a bare SEND ends the loop. -/
theorem C4_dispatcher_errors_continue_witness :
    ((handle_client_process usersScenarioB "bob" "SEND carol hi\n" "t1" initSched).broke = false ∧
     (handle_client_process usersScenarioB "bob" "SEND carol hi\n" "t1" initSched).sent
       = [("bob", "ERROR: User `carol` does not exist.\r\n")]) ∧
    ((handle_client_process usersScenarioB "bob" "FROB\n" "t1" initSched).broke = false ∧
     (handle_client_process usersScenarioB "bob" "FROB\n" "t1" initSched).sent
       = [("bob", notUnderstoodText)]) ∧
    ((handle_client_process usersBobOnlineAliceOffline "bob" "SEND alice hi\n" "t1"
        initSched).broke = false ∧
     (handle_client_process usersBobOnlineAliceOffline "bob" "SEND alice hi\n" "t1"
        initSched).sent = [("bob", "ERROR: User `alice` is not online.\r\n")]) ∧
    ((handle_client_process usersScenarioB "bob" "HELP FROBNICATE\n" "t1" initSched).broke
        = false ∧
     (handle_client_process usersScenarioB "bob" "HELP FROBNICATE\n" "t1" initSched).sent
       = [("bob", helpTopicErrorText)]) ∧
    ((handle_client_process usersScenarioB "bob" "SEND \n" "t1" initSched).broke = true ∧
     (handle_client_process usersScenarioB "bob" "SEND \n" "t1" initSched).sent = []) := by
  have h := C4_dispatcher_errors_continue_missing_arg_aborts usersScenarioB "bob"
    (freshRecord 8 "t0") "t1" initSched rfl (Or.inr ⟨[], rfl⟩)
  have h2 := C4_dispatcher_errors_continue_missing_arg_aborts usersBobOnlineAliceOffline
    "bob" (freshRecord 8 "t0") "t1" initSched rfl (Or.inr ⟨[], rfl⟩)
  exact ⟨h.2.1 "SEND carol hi\n" "carol" ["hi"] rfl rfl,
    h.2.2.1 "FROB\n" "FROB" rfl
      (by decide) (by decide) (by decide) (by decide) (by decide) (by decide) (by decide),
    h2.2.2.2.2.1 "SEND alice hi\n" "alice" ["hi"]
      [("conn", Val.vnone), ("commands", Val.vlist []),
       ("messages_received", Val.vlist []),
       ("first_login", Val.vstr "t0"), ("last_active", Val.vstr "t0")]
      rfl (by decide) rfl rfl,
    h.2.2.2.2.2 "HELP FROBNICATE\n" "FROBNICATE" [] rfl (by decide) (by decide),
    h.1 "SEND \n" rfl⟩

/-- The amended delivery contract: for every SEND whose recipient exists and
is connected, the entry appended to the recipient's inbox is the dictionary
of line 240 recording the timestamp and the message — and only those two
keys, the sender's username is not stored — the message is delivered to the
recipient's connection, and the sender receives the confirmation
`OK: Message sent to <recipient>.`. -/
theorem C2_send_appends_timestamp_message_and_confirms
    (us : Users) (username recipient : String) (urec rrec : Dict)
    (received_data ts : String) (msgParts : List String) (sched : SchedState)
    (fd : Int) (inbox : List Val)
    (hu : alget us username = some urec)
    (hc : alget urec "commands" = none ∨ ∃ l, alget urec "commands" = some (Val.vlist l))
    (hp : pySplit (pyStrip received_data) = "SEND" :: recipient :: msgParts)
    (hr : alget us recipient = some rrec)
    (hconn : alget rrec "conn" = some (Val.vsock fd))
    (hfd : fd ≠ -1)
    (hinbox : alget rrec "messages_received" = some (Val.vlist inbox)) :
    (handle_client_process us username received_data ts sched).broke = false ∧
    (alget (handle_client_process us username received_data ts sched).users recipient).bind
        (fun r2 => alget r2 "messages_received")
      = some (Val.vlist (inbox ++
          [Val.vdict [("timestamp", Val.vdt ts),
                      ("message", Val.vstr (pyJoin msgParts))]])) ∧
    (handle_client_process us username received_data ts sched).sent
      = [(recipient, "[" ++ ts ++ "] " ++ username ++ ": " ++ pyJoin msgParts ++ "\r\n"),
         (username, "OK: Message sent to " ++ recipient ++ ".\r\n")] := by
  obtain ⟨urec3, heq, hconn3, hinbox3⟩ :=
    handle_client_process_dispatch us username urec received_data ts sched hu hc
  obtain ⟨R, halgetR, hconnR, hinboxR⟩ :
      ∃ R, alget (alset us username urec3) recipient = some R ∧
        alget R "conn" = some (Val.vsock fd) ∧
        alget R "messages_received" = some (Val.vlist inbox) := by
    by_cases hru : recipient = username
    · have hur : urec = rrec := by
        rw [hru] at hr
        rw [hu] at hr
        exact Option.some.inj hr
      refine ⟨urec3, ?_, ?_, ?_⟩
      · rw [hru]
        exact alget_alset_self _ _ _
      · rw [hconn3, hur]
        exact hconn
      · rw [hinbox3, hur]
        exact hinbox
    · refine ⟨rrec, ?_, hconn, hinbox⟩
      rw [alget_alset_ne _ _ (fun e => hru e.symm)]
      exact hr
  have hlive : user_is_connected R = (true, R) := by
    unfold user_is_connected
    rw [hconnR]
    simp [hfd]
  rw [heq, hp]
  refine ⟨?_, ?_, ?_⟩ <;>
    simp [handle_client_dispatch, halgetR, hlive, hinboxR, alget_alset_self,
      alset_alset_same]

/-- Witness: in Scenario B's directory, bob's `SEND alice hi there` appends
to alice's inbox exactly the timestamp/message dictionary and bob receives
the confirmation. -/
theorem C2_send_appends_witness :
    (handle_client_process usersScenarioB "bob" "SEND alice hi there\n" "t1" initSched).broke
        = false ∧
    (alget (handle_client_process usersScenarioB "bob" "SEND alice hi there\n" "t1"
        initSched).users "alice").bind (fun r2 => alget r2 "messages_received")
      = some (Val.vlist [Val.vdict [("timestamp", Val.vdt "t1"),
                                    ("message", Val.vstr "hi there")]]) ∧
    (handle_client_process usersScenarioB "bob" "SEND alice hi there\n" "t1" initSched).sent
      = [("alice", "[t1] bob: hi there\r\n"), ("bob", "OK: Message sent to alice.\r\n")] :=
  C2_send_appends_timestamp_message_and_confirms usersScenarioB "bob" "alice"
    (freshRecord 8 "t0") (freshRecord 7 "t0") "SEND alice hi there\n" "t1"
    ["hi", "there"] initSched 7 [] rfl (Or.inr ⟨[], rfl⟩) rfl rfl rfl (by decide) rfl

end Nayak
